import Mathlib

/-!
# Verification of the dev-event authentication and session-security core

A shallow embedding, in Lean 4, of the auth subsystem of the `dev-event`
Next.js repository: the token service (`src/backend/libs/jwt.ts`), the CSRF
guard (`src/backend/libs/csrf.ts`), the request-metadata helpers
(`src/backend/libs/metadata.ts`), the response envelope
(`src/backend/libs/response.ts`), and the login / register / refresh route
handlers (`src/app/api/v1/auth/...` and the legacy `src/app/api/auth/...`).

Conventions of the embedding:
* Time is an explicit parameter (`now`, in seconds for JWT expiry, in
  milliseconds for CSRF ages), mirroring `Date.now()` and the JWT clock.
* Cryptographic primitives (HMAC-SHA256, used both by the CSRF guard and by
  the `jose` HS256 signer) are idealized as an executable deterministic
  keyed digest `hmacSha256Hex` producing a hex string; the routes and the
  verifiers only ever *compare* digests, so no property of the real hash
  beyond determinism is assumed.
* JWTs are modelled by the inductive `Tok`: a structurally well-formed
  signed token, or an uninterpreted `malformed` blob (a cookie can carry any
  string).  CSRF tokens, whose verifier does genuine string surgery
  (`split('.')`, byte comparison), are modelled at the string level.
* Effectful route handlers are embedded as pure functions returning an
  ordered trace of effects (database writes, cookie writes, the response),
  so before/after ordering of side effects is visible in the result.
-/

/-! ## Decimal / hexadecimal printing (for `${timestamp}` and hex digests) -/

/-- The digit character for `d` (0-9 then a-f), as used when printing
numbers in base 10 or 16. -/
def digitChar (d : Nat) : Char :=
  if d < 10 then Char.ofNat (48 + d) else Char.ofNat (87 + d)

/-- Fuel-driven base conversion: writes the digits of `n` in base `base` in
front of `acc`, most significant first.  The fuel only bounds recursion
depth; 128 digits suffice for every number in this development. -/
def toBaseAux (base : Nat) : Nat → Nat → List Char → List Char
  | 0, _, acc => acc
  | fuel + 1, n, acc =>
      if n = 0 then acc
      else toBaseAux base fuel (n / base) (digitChar (n % base) :: acc)

/-- Prints `n` in base `base` (used with base 10 for `${timestamp}` and
base 16 for hex digests). -/
def natToBase (base n : Nat) : String :=
  if n = 0 then "0" else String.mk (toBaseAux base 128 n [])

/-- Decimal representation of a natural number, as JS template interpolation
`${n}` produces. -/
def natToDec (n : Nat) : String := natToBase 10 n

/-- Hexadecimal representation of a natural number. -/
def natToHex (n : Nat) : String := natToBase 16 n

/-- An injective numeric code for a string (positional encoding of its
characters); only used to build the idealized digest below. -/
def strCode (s : String) : Nat :=
  s.data.foldl (fun a c => a * 1114112 + (c.toNat + 1)) 1

/-- Idealized executable stand-in for the HMAC-SHA256 hex digest
(`createHmac('sha256', key).update(msg).digest('hex')` in the CSRF guard,
and the HS256 signature inside `jose`).  Deterministic keyed digest whose
output is a nonempty dot-free hex string; the code under verification only
compares digests for equality. -/
def hmacSha256Hex (key msg : String) : String :=
  natToHex ((strCode key * 2654435761 + strCode msg * 131 + 7) % (2 ^ 64))

/-! ## The token service (`src/backend/libs/jwt.ts`, `jose` HS256) -/

/-- A value that can sit in a token-bearing cookie: either a structurally
well-formed JWT (header algorithm, claim set, issued-at, expiry, signature)
or an uninterpreted malformed string. -/
inductive Tok where
  | jwt (alg : String) (claims : List (String × String)) (iat : Nat)
      (exp : Nat) (sig : String)
  | malformed (raw : String)
deriving DecidableEq, Repr

/-- The signing input of a JWT: a serialization of the protected header and
the payload (in the real library, `base64url(header).base64url(payload)`). -/
def jwtSigningInput (alg : String) (claims : List (String × String))
    (iat exp : Nat) : String :=
  alg ++ "|" ++
    (claims.foldl (fun acc kv => acc ++ kv.1 ++ "=" ++ kv.2 ++ ";") "") ++
    "|" ++ natToDec iat ++ "|" ++ natToDec exp

/-- Function `signToken(payload, expires)` from `src/backend/libs/jwt.ts`: embeds the
payload, sets the protected header to HS256, sets `iat := now` and
`exp := now + ttlSec` (the duration string, e.g. `'15m'` = 900 or `'7d'` =
604800, pre-converted to seconds), and signs with the server secret. -/
def signToken (secret : String) (claims : List (String × String))
    (ttlSec now : Nat) : Tok :=
  Tok.jwt "HS256" claims now (now + ttlSec)
    (hmacSha256Hex secret (jwtSigningInput "HS256" claims now (now + ttlSec)))

/-- The payload object returned by a successful `jwtVerify`: the caller's
claims together with the registered `iat` and `exp` claims that signing
merged into the payload. -/
structure JwtPayload where
  claims : List (String × String)
  iat : Nat
  exp : Nat
deriving DecidableEq, Repr

/-- Function `verifyToken(token)` from `src/backend/libs/jwt.ts`: `jwtVerify` checks
the fixed algorithm, the signature against the server secret, and the `exp`
claim (expired when `exp ≤ now`); the surrounding `try/catch` converts every
failure — malformed token, wrong algorithm, bad signature, expiry — into
`null` (here `none`), with no distinction between causes. -/
def verifyToken (secret : String) (now : Nat) : Tok → Option JwtPayload
  | Tok.malformed _ => none
  | Tok.jwt alg claims iat exp sig =>
      if alg ≠ "HS256" then none
      else if sig ≠ hmacSha256Hex secret (jwtSigningInput alg claims iat exp) then none
      else if exp ≤ now then none
      else some ⟨claims, iat, exp⟩

/-! ## The CSRF guard (`src/backend/libs/csrf.ts`), at string level -/

/-- JS `token.split('.')` on the character list: splits at every dot, keeping
empty segments (JS `String.prototype.split` semantics). -/
def splitOnDotChars : List Char → List (List Char)
  | [] => [[]]
  | c :: rest =>
      if c = '.' then [] :: splitOnDotChars rest
      else
        match splitOnDotChars rest with
        | [] => [[c]]
        | h :: t => (c :: h) :: t

/-- JS `token.split('.')` on strings. -/
def splitOnDot (s : String) : List String :=
  (splitOnDotChars s.data).map String.mk

/-- The numeric value of a digit list (most significant first). -/
def digitsVal (l : List Char) : Nat :=
  l.foldl (fun a c => a * 10 + (c.toNat - 48)) 0

/-- JS `parseInt(str, 10)`: skip leading whitespace, optional sign, then the
longest digit prefix; `none` models `NaN` (no digits at all).  Trailing
garbage is ignored. -/
def jsParseInt (s : String) : Option Int :=
  let core : List Char → Option Nat := fun cs =>
    let ds := cs.takeWhile Char.isDigit
    if ds.isEmpty then none else some (digitsVal ds)
  match s.data.dropWhile Char.isWhitespace with
  | [] => none
  | c :: rest =>
      if c = '-' then (core rest).map (fun n => -(n : Int))
      else if c = '+' then (core rest).map (fun n => (n : Int))
      else (core (c :: rest)).map (fun n => (n : Int))

/-- Constant `CSRF_TOKEN_EXPIRY = 60 * 60 * 24` seconds. -/
def CSRF_TOKEN_EXPIRY : Nat := 60 * 60 * 24

/-- The allowlist of paths exempt from CSRF validation. -/
def SKIP_PATHS : List String := ["/api/v1/auth/login", "/api/v1/auth/register"]

/-- Result of `verifyCsrfToken`: `{ valid, expired }`. -/
structure CsrfVerification where
  valid : Bool
  expired : Bool
deriving DecidableEq, Repr

/-- Function `generateCsrfToken()` from `src/backend/libs/csrf.ts`: with `randHex`
the hex encoding of 32 random bytes and `nowMs = Date.now()`, produces
`token.timestamp.signature` where the signature is the HMAC-SHA256 of
`token.timestamp` under the server secret. -/
def generateCsrfToken (secret randHex : String) (nowMs : Nat) : String :=
  let payload := randHex ++ "." ++ natToDec nowMs
  let signature := hmacSha256Hex secret payload
  payload ++ "." ++ signature

/-- Function `verifyCsrfToken(token)` from `src/backend/libs/csrf.ts`: requires
exactly three nonempty dot-separated parts, recomputes the HMAC over
`value.timestamp` and compares it (byte length first, then constant-time
content) with the provided signature; on a signature match, a parsed age
above `CSRF_TOKEN_EXPIRY` gives `{valid := true, expired := true}`,
otherwise `{valid := true, expired := false}`.  An unparseable timestamp
(`parseInt` NaN) makes the age comparison false in JS, hence fresh.  The
age test `(nowMs - ts) / 1000 > CSRF_TOKEN_EXPIRY` is stated equivalently
as `nowMs - ts > CSRF_TOKEN_EXPIRY * 1000` (exact division ordering). -/
def verifyCsrfToken (secret : String) (nowMs : Nat) (token : String) :
    CsrfVerification :=
  if token = "" then ⟨false, false⟩
  else
    match splitOnDot token with
    | [tokenValue, timestampStr, signature] =>
        if tokenValue = "" ∨ timestampStr = "" ∨ signature = "" then
          ⟨false, false⟩
        else
          let payload := tokenValue ++ "." ++ timestampStr
          let expectedSignature := hmacSha256Hex secret payload
          if signature.utf8ByteSize ≠ expectedSignature.utf8ByteSize ∨
              signature ≠ expectedSignature then
            ⟨false, false⟩
          else
            match jsParseInt timestampStr with
            | none => ⟨true, false⟩
            | some ts =>
                if (nowMs : Int) - ts > (CSRF_TOKEN_EXPIRY : Int) * 1000 then
                  ⟨true, true⟩
                else ⟨true, false⟩
    | _ => ⟨false, false⟩

/-- Function `validateCsrfToken(req)` from `src/backend/libs/csrf.ts` (double-submit
cookie pattern): safe methods and allowlisted paths are exempt; otherwise
both the `csrf_token` cookie and the `x-csrf-token` header must be present
(nonempty — JS falsiness), byte-length-equal and byte-equal, and the final
decision is the `valid` flag of the cookie token's verification. -/
def validateCsrfToken (secret : String) (nowMs : Nat)
    (method pathname : String)
    (cookieToken headerToken : Option String) : Bool :=
  if ["GET", "HEAD", "OPTIONS", "TRACE"].contains method ∨
      SKIP_PATHS.contains pathname then
    true
  else
    let ct := cookieToken.getD ""
    let ht := headerToken.getD ""
    if ct = "" ∨ ht = "" then false
    else
      let verification := verifyCsrfToken secret nowMs ct
      if ct.utf8ByteSize ≠ ht.utf8ByteSize ∨ ct ≠ ht then false
      else verification.valid

/-! ## Response envelope (`src/backend/libs/response.ts`) and HTTP statuses -/

/-- One entry of the `errors` array of the error envelope:
`{ detail, attr }`. -/
structure ErrorItem where
  detail : String
  attr : Option String
deriving DecidableEq, Repr

/-- The `type` discriminator of the error envelope. -/
inductive ErrType where
  | client_error
  | server_error
deriving DecidableEq, Repr

/-- The wire envelope: success `{code, detail, data, timestamp}` or error
`{type, code, errors, timestamp}`.  The HTTP status accompanies the body;
the ISO timestamp is modelled by the numeric instant `timestamp`. -/
inductive ApiResponse (α : Type) where
  | success (code : String) (status : Nat) (data : α) (detail : String)
      (timestamp : Nat)
  | error (etype : ErrType) (code : String) (status : Nat)
      (errors : List ErrorItem) (timestamp : Nat)
deriving DecidableEq, Repr

/-- Function `apiSuccess(code, status, data, detail)`. -/
def apiSuccess {α : Type} (code : String) (status : Nat) (data : α)
    (detail : String) (now : Nat) : ApiResponse α :=
  ApiResponse.success code status data detail now

/-- Function `apiError(code, status, errors, type = 'client_error')`; the `etype`
argument is written explicitly at every call site. -/
def apiError {α : Type} (code : String) (status : Nat)
    (errors : List ErrorItem) (now : Nat) (etype : ErrType) : ApiResponse α :=
  ApiResponse.error etype code status errors now

/-- An entry of the `HTTP_STATUS` table
(`src/backend/constants/http-status.ts`). -/
structure HttpStatusEntry where
  code : Nat
  message : String
deriving DecidableEq, Repr

namespace HTTP_STATUS

def OK : HttpStatusEntry := ⟨200, "OK"⟩

def CREATED : HttpStatusEntry := ⟨201, "CREATED"⟩

def BAD_REQUEST : HttpStatusEntry := ⟨400, "BAD_REQUEST"⟩

def UNAUTHORIZED : HttpStatusEntry := ⟨401, "UNAUTHORIZED"⟩

def FORBIDDEN : HttpStatusEntry := ⟨403, "FORBIDDEN"⟩

def TOO_MANY_REQUESTS : HttpStatusEntry := ⟨429, "TOO_MANY_REQUESTS"⟩

def INTERNAL_SERVER_ERROR : HttpStatusEntry := ⟨500, "INTERNAL_SERVER_ERROR"⟩

end HTTP_STATUS

/-- The data payload of the auth routes' success envelope: `null`, or the
raw `{accessToken, refreshToken}` pair that the legacy login returns when
`returnToken` is requested. -/
abbrev TokenPair := Tok × Tok

/-- A value thrown inside a route handler: a fully-formed response object
(what `validateRequest` throws) or a JS `Error` with a message. -/
inductive Thrown where
  | response (r : ApiResponse (Option TokenPair))
  | jsError (message : String)
deriving DecidableEq, Repr

/-- Function `internalServerError(error)` from `src/backend/libs/response.ts`:
`error instanceof Error ? error.message : 'Unknown server error'`, wrapped
as a 500 `server_error` envelope.  A thrown `Response` is not an `Error`,
so it yields the generic detail. -/
def internalServerError (e : Thrown) (now : Nat) :
    ApiResponse (Option TokenPair) :=
  apiError HTTP_STATUS.INTERNAL_SERVER_ERROR.message
    HTTP_STATUS.INTERNAL_SERVER_ERROR.code
    [⟨match e with
      | Thrown.jsError m => m
      | Thrown.response _ => "Unknown server error", none⟩]
    now ErrType.server_error

/-- A Zod validation issue, reduced to the fields `validationError` reads:
`message` and `path`. -/
structure ZodIssue where
  message : String
  path : List String
deriving DecidableEq, Repr

/-- Function `validationError(issues)` from `src/backend/libs/validation.ts`: maps
every issue to `{detail := issue.message, attr := issue.path.join('.')}`
inside a 400 envelope. -/
def validationError (issues : List ZodIssue) (now : Nat) :
    ApiResponse (Option TokenPair) :=
  apiError HTTP_STATUS.BAD_REQUEST.message HTTP_STATUS.BAD_REQUEST.code
    (issues.map fun issue =>
      ⟨issue.message, some (String.intercalate "." issue.path)⟩)
    now ErrType.client_error

/-! ## Request metadata (`src/backend/libs/metadata.ts`) -/

/-- JS `String.prototype.trim`: strips whitespace from both ends. -/
def jsTrim (s : String) : String :=
  String.mk
    (((s.data.dropWhile Char.isWhitespace).reverse.dropWhile
      Char.isWhitespace).reverse)

/-- Function `getClientIP(req)`: reads `x-forwarded-for` (absent or empty falls back
to `'127.0.0.1'`), keeps only the part before the first comma (trimmed)
when the header contains a comma, and normalizes the IPv6 loopback `'::1'`
to `'127.0.0.1'`. -/
def getClientIP (xForwardedFor : Option String) : String :=
  let ip := match xForwardedFor with
    | none => "127.0.0.1"
    | some v => if v = "" then "127.0.0.1" else v
  let ip := if ip.data.contains ',' then
      jsTrim (String.mk (ip.data.takeWhile (fun c => c ≠ ',')))
    else ip
  if ip = "::1" then "127.0.0.1" else ip

/-- Function `createRedisKey(location)` from `src/backend/libs/redis.ts`. -/
def createRedisKey (isProd : Bool) (location : String) : String :=
  (if isProd then "production" else "development") ++ ":" ++ location

/-! ## Data model: sessions and users -/

/-- One embedded session of the current (v1) user model
(`Session` in `src/core/types/user.ts`): the live refresh-token value plus
device/network metadata; `createdAt` is the Mongoose timestamp. -/
structure Session where
  refreshToken : Tok
  ip : String
  os : String
  browser : String
  location : String
  type : String
  createdAt : Nat
deriving DecidableEq, Repr

/-- The current (v1) user document (`UserModels` in
`src/core/types/user.ts`), with the password hash selected. -/
structure User where
  id : String
  name : String
  email : String
  password : String
  sessions : List Session
deriving DecidableEq, Repr

/-- The legacy user document (single `refreshToken` field instead of a
session list), used by the legacy `/api/auth/login` route. -/
structure UserV0 where
  id : String
  name : String
  email : String
  password : String
  refreshToken : Option Tok
deriving DecidableEq, Repr

/-- JS `Array.prototype.findIndex` specialized to
`(session) => session.refreshToken === oldRefreshToken`; `none` models the
`-1` result. -/
def findIndexRT (tok : Tok) : List Session → Option Nat
  | [] => none
  | s :: rest =>
      if s.refreshToken = tok then some 0
      else (findIndexRT tok rest).map (· + 1)

/-- In-place update of the element at index `i`
(`user.sessions[i].refreshToken = ...`). -/
def modifyIdx {α : Type} (f : α → α) : Nat → List α → List α
  | _, [] => []
  | 0, a :: l => f a :: l
  | n + 1, a :: l => a :: modifyIdx f n l

/-! ## Route handlers as effect traces -/

/-- One `cookieStore.set(name, value, options)` call.  The cookie value is
a token (`Tok` stands for the signed JWT string). -/
structure SetCookie where
  name : String
  value : Tok
  httpOnly : Bool
  secure : Bool
  sameSite : String
  maxAge : Nat
  path : String
deriving DecidableEq, Repr

/-- The observable effects of one v1 route invocation, in program order. -/
inductive Effect where
  | dbSave (u : User)
  | dbCreate (name email password : String)
  | setCookie (c : SetCookie)
  | respond (r : ApiResponse (Option TokenPair))
deriving DecidableEq, Repr

/-- The cookie-set effects of a trace, in order. -/
def cookiesOf (trace : List Effect) : List SetCookie :=
  trace.filterMap fun e =>
    match e with
    | Effect.setCookie c => some c
    | _ => none

/-- Route `POST /api/v1/auth/refresh` (`src/app/api/v1/auth/refresh/route.ts`).
Inputs: the `refreshToken` cookie (absent cookie = `none`), the database as
a lookup `findById`, the clock and the environment flag.  Mirrors the
source in order: missing cookie → 401; failed verification or falsy
`payload.userId` → 401; unknown user → 401; token absent from the session
list → revoke all sessions, save, 403 security alert; otherwise rotate the
matched session's refresh token in place, save, set both cookies, 200. -/
def refreshPost (secret : String) (now : Nat) (isProd : Bool)
    (cookieRefreshToken : Option Tok)
    (findById : String → Option User) : List Effect :=
  match cookieRefreshToken with
  | none =>
      [Effect.respond (apiError HTTP_STATUS.UNAUTHORIZED.message
        HTTP_STATUS.UNAUTHORIZED.code
        [⟨"Refresh token missing", some "refreshToken"⟩] now
        ErrType.client_error)]
  | some oldRefreshToken =>
      -- `if (!payload || !payload.userId)`: absent payload, absent claim
      -- and empty-string claim are all falsy and take the same branch.
      let payloadUserId : Option String :=
        match verifyToken secret now oldRefreshToken with
        | none => none
        | some payload =>
            match payload.claims.lookup "userId" with
            | none => none
            | some uid => if uid = "" then none else some uid
      match payloadUserId with
      | none =>
          [Effect.respond (apiError HTTP_STATUS.UNAUTHORIZED.message
            HTTP_STATUS.UNAUTHORIZED.code
            [⟨"Invalid or expired refresh token", some "refreshToken"⟩] now
            ErrType.client_error)]
      | some uid =>
          match findById uid with
          | none =>
              [Effect.respond (apiError HTTP_STATUS.UNAUTHORIZED.message
                HTTP_STATUS.UNAUTHORIZED.code
                [⟨"User not found", none⟩] now ErrType.client_error)]
          | some user =>
              match findIndexRT oldRefreshToken user.sessions with
              | none =>
                  -- Token reuse detected: revoke all sessions, then respond.
                  [Effect.dbSave { user with sessions := [] },
                   Effect.respond (apiError HTTP_STATUS.FORBIDDEN.message
                     HTTP_STATUS.FORBIDDEN.code
                     [⟨"Security Alert: reused refresh token detected. All sessions have been revoked.",
                       none⟩] now ErrType.client_error)]
              | some currentSessionIndex =>
                  let newAccessToken :=
                    signToken secret [("userId", user.id)] 900 now
                  let newRefreshToken :=
                    signToken secret [("userId", user.id)] 604800 now
                  let rotate := fun (s : Session) =>
                    { s with refreshToken := newRefreshToken }
                  [Effect.dbSave
                     { user with sessions :=
                         modifyIdx rotate currentSessionIndex user.sessions },
                   Effect.setCookie
                     ⟨"accessToken", newAccessToken, true, isProd, "strict",
                      15 * 60, "/"⟩,
                   Effect.setCookie
                     ⟨"refreshToken", newRefreshToken, true, isProd, "strict",
                      7 * 24 * 60 * 60, "/"⟩,
                   Effect.respond (apiSuccess HTTP_STATUS.OK.message
                     HTTP_STATUS.OK.code none "Token refreshed successfully"
                     now)]

/-- The validated login body (`loginSchema` in `src/core/schema/user.ts`). -/
structure LoginBody where
  email : String
  password : String
  returnToken : Option Bool
deriving DecidableEq, Repr

/-- The session metadata produced by `getUserAgent(req)`. -/
structure SessionInfo where
  ip : String
  os : String
  browser : String
  location : String
deriving DecidableEq, Repr

/-- Route `POST /api/v1/auth/login` (`src/app/api/v1/auth/login/route.ts`).
`ipAllowed` / `emailAllowed` are the two rate limiters' verdicts;
`bodyResult` is the outcome of `validateRequest` (which throws a formed
response on bad input — the v1 catch-all, which has no
`instanceof Response` check, funnels every thrown value through
`internalServerError`); `findByEmail` is `User.findOne({email}).select('+password')`;
`bcryptCompare` is `user.comparePassword`.  On success: mint the token
pair, append a session (the pushed `accessToken` field is not part of the
session schema and is dropped on save), save, set both cookies, respond
with `data: null`. -/
def loginPostV1 (secret : String) (now : Nat) (isProd : Bool)
    (ipAllowed emailAllowed : Bool)
    (bodyResult : Except Thrown LoginBody)
    (findByEmail : String → Option User)
    (bcryptCompare : String → String → Bool)
    (sessionInfo : SessionInfo) : List Effect :=
  if ¬ipAllowed then
    [Effect.respond (apiError HTTP_STATUS.TOO_MANY_REQUESTS.message
      HTTP_STATUS.TOO_MANY_REQUESTS.code
      [⟨"Too many login attempts from this IP. Please try again later.", none⟩]
      now ErrType.client_error)]
  else
    match bodyResult with
    | Except.error e => [Effect.respond (internalServerError e now)]
    | Except.ok body =>
        if ¬emailAllowed then
          [Effect.respond (apiError HTTP_STATUS.TOO_MANY_REQUESTS.message
            HTTP_STATUS.TOO_MANY_REQUESTS.code
            [⟨"Too many login attempts for this email. Please try again later.",
              none⟩] now ErrType.client_error)]
        else
          let invalidCredentialsError : ApiResponse (Option TokenPair) :=
            apiError HTTP_STATUS.UNAUTHORIZED.message
              HTTP_STATUS.UNAUTHORIZED.code
              [⟨"Invalid credentials", none⟩] now ErrType.client_error
          match findByEmail body.email with
          | none => [Effect.respond invalidCredentialsError]
          | some user =>
              if ¬bcryptCompare body.password user.password then
                [Effect.respond invalidCredentialsError]
              else
                let accessToken := signToken secret [("userId", user.id)] 900 now
                let refreshToken :=
                  signToken secret [("userId", user.id)] 604800 now
                [Effect.dbSave { user with sessions := user.sessions ++
                    [⟨refreshToken, sessionInfo.ip, sessionInfo.os,
                      sessionInfo.browser, sessionInfo.location, "credential",
                      now⟩] },
                 Effect.setCookie
                   ⟨"accessToken", accessToken, true, isProd, "strict",
                    15 * 60, "/"⟩,
                 Effect.setCookie
                   ⟨"refreshToken", refreshToken, true, isProd, "strict",
                    7 * 24 * 60 * 60, "/"⟩,
                 Effect.respond (apiSuccess HTTP_STATUS.OK.message
                   HTTP_STATUS.OK.code none "Login successful" now)]

/-- The validated registration body (`registerSchema` in
`src/core/schema/user.ts`). -/
structure RegisterBody where
  name : String
  email : String
  password : String
  _honey : Option String
deriving DecidableEq, Repr

/-- Route `POST /api/v1/auth/register` (bundled in
`src/app/api/v1/auth/login/route.ts`).  IP rate limit → validation (a
thrown response is funnelled through `internalServerError` by the v1
catch, exactly as in login) → honeypot (a nonempty `_honey` is truthy and
rejected) → existence check: an existing email answers with the same
success shape as a fresh registration and performs no create; a fresh
email creates the user and answers 201. -/
def registerPostV1 (now : Nat)
    (ipAllowed : Bool)
    (bodyResult : Except Thrown RegisterBody)
    (findByEmail : String → Option User) : List Effect :=
  if ¬ipAllowed then
    [Effect.respond (apiError HTTP_STATUS.TOO_MANY_REQUESTS.message
      HTTP_STATUS.TOO_MANY_REQUESTS.code
      [⟨"Too many registration attempts. Please try again later.", none⟩]
      now ErrType.client_error)]
  else
    match bodyResult with
    | Except.error e => [Effect.respond (internalServerError e now)]
    | Except.ok body =>
        if (match body._honey with
            | some h => h ≠ ""
            | none => false : Bool) then
          [Effect.respond (apiError HTTP_STATUS.BAD_REQUEST.message
            HTTP_STATUS.BAD_REQUEST.code
            [⟨"Invalid request", some "_honey"⟩] now ErrType.client_error)]
        else
          match findByEmail body.email with
          | some _ =>
              [Effect.respond (apiSuccess HTTP_STATUS.OK.message
                HTTP_STATUS.OK.code none
                "If this email is valid, you will be able to log in." now)]
          | none =>
              [Effect.dbCreate body.name body.email body.password,
               Effect.respond (apiSuccess HTTP_STATUS.CREATED.message
                 HTTP_STATUS.CREATED.code none
                 "Registration successful. Please log in." now)]

/-- The observable effects of one legacy route invocation. -/
inductive EffectV0 where
  | dbSave (u : UserV0)
  | setCookie (c : SetCookie)
  | respond (r : ApiResponse (Option TokenPair))
deriving DecidableEq, Repr

/-- Legacy `POST /api/auth/login` (`src/app/api/auth/login/route.ts`).
Differences from v1: the user document holds a single `refreshToken`
field; the catch-all starts with `if (error instanceof Response) return
error`, so thrown validation responses pass through unchanged; and the
success body carries `{accessToken, refreshToken}` when `returnToken` is
truthy, `null` otherwise. -/
def loginPostV0 (secret : String) (now : Nat) (isProd : Bool)
    (ipAllowed emailAllowed : Bool)
    (bodyResult : Except Thrown LoginBody)
    (findByEmail : String → Option UserV0)
    (bcryptCompare : String → String → Bool) : List EffectV0 :=
  if ¬ipAllowed then
    [EffectV0.respond (apiError HTTP_STATUS.TOO_MANY_REQUESTS.message
      HTTP_STATUS.TOO_MANY_REQUESTS.code
      [⟨"Too many login attempts from this IP. Please try again later.", none⟩]
      now ErrType.client_error)]
  else
    match bodyResult with
    | Except.error (Thrown.response r) => [EffectV0.respond r]
    | Except.error (Thrown.jsError m) =>
        [EffectV0.respond (internalServerError (Thrown.jsError m) now)]
    | Except.ok body =>
        if ¬emailAllowed then
          [EffectV0.respond (apiError HTTP_STATUS.TOO_MANY_REQUESTS.message
            HTTP_STATUS.TOO_MANY_REQUESTS.code
            [⟨"Too many login attempts for this email. Please try again later.",
              none⟩] now ErrType.client_error)]
        else
          let invalidCredentialsError : ApiResponse (Option TokenPair) :=
            apiError HTTP_STATUS.UNAUTHORIZED.message
              HTTP_STATUS.UNAUTHORIZED.code
              [⟨"Invalid credentials", none⟩] now ErrType.client_error
          match findByEmail body.email with
          | none => [EffectV0.respond invalidCredentialsError]
          | some user =>
              if ¬bcryptCompare body.password user.password then
                [EffectV0.respond invalidCredentialsError]
              else
                let accessToken := signToken secret [("userId", user.id)] 900 now
                let refreshToken :=
                  signToken secret [("userId", user.id)] 604800 now
                let responseData : Option TokenPair :=
                  if body.returnToken.getD false then
                    some (accessToken, refreshToken)
                  else none
                [EffectV0.dbSave { user with refreshToken := some refreshToken },
                 EffectV0.setCookie
                   ⟨"accessToken", accessToken, true, isProd, "strict",
                    15 * 60, "/"⟩,
                 EffectV0.setCookie
                   ⟨"refreshToken", refreshToken, true, isProd, "strict",
                    7 * 24 * 60 * 60, "/"⟩,
                 EffectV0.respond (apiSuccess HTTP_STATUS.OK.message
                   HTTP_STATUS.OK.code responseData "Login successful" now)]

/-! ## Helper lemmas: digit characters and base conversion -/

theorem digitChar_lt_ne_dot {d : Nat} (h : d < 16) : digitChar d ≠ '.' := by
  interval_cases d <;> decide

theorem digitChar_lt_isDigit {d : Nat} (h : d < 10) :
    (digitChar d).isDigit = true := by
  interval_cases d <;> decide

theorem digitChar_lt_not_ws {d : Nat} (h : d < 10) :
    (digitChar d).isWhitespace = false := by
  interval_cases d <;> decide

theorem digitChar_lt_ne_minus {d : Nat} (h : d < 10) : digitChar d ≠ '-' := by
  interval_cases d <;> decide

theorem digitChar_lt_ne_plus {d : Nat} (h : d < 10) : digitChar d ≠ '+' := by
  interval_cases d <;> decide

theorem digitChar_lt_toNat {d : Nat} (h : d < 10) :
    (digitChar d).toNat = 48 + d := by
  interval_cases d <;> decide

theorem toBaseAux_zero (base : Nat) (fuel : Nat) (acc : List Char) :
    toBaseAux base fuel 0 acc = acc := by
  cases fuel <;> simp [toBaseAux]

theorem mem_toBaseAux {base : Nat} (hbase : base ≤ 16) (hpos : 0 < base) :
    ∀ (fuel n : Nat) (acc : List Char) (c : Char),
      c ∈ toBaseAux base fuel n acc → c ∈ acc ∨ ∃ d, d < 16 ∧ c = digitChar d := by
  intro fuel
  induction fuel with
  | zero => intro n acc c hc; exact Or.inl hc
  | succ fuel ih =>
      intro n acc c hc
      simp only [toBaseAux] at hc
      by_cases hn : n = 0
      · rw [if_pos hn] at hc; exact Or.inl hc
      · rw [if_neg hn] at hc
        rcases ih (n / base) _ c hc with hmem | hd
        · rcases List.mem_cons.mp hmem with hd | hacc
          · exact Or.inr ⟨n % base, lt_of_lt_of_le (Nat.mod_lt n hpos) hbase, hd⟩
          · exact Or.inl hacc
        · exact Or.inr hd

theorem toBaseAux_length_le (base : Nat) :
    ∀ (fuel n : Nat) (acc : List Char),
      acc.length ≤ (toBaseAux base fuel n acc).length := by
  intro fuel
  induction fuel with
  | zero => intro n acc; simp [toBaseAux]
  | succ fuel ih =>
      intro n acc
      simp only [toBaseAux]
      by_cases hn : n = 0
      · rw [if_pos hn]
      · rw [if_neg hn]
        calc acc.length ≤ (digitChar (n % base) :: acc).length := by
              simp
          _ ≤ _ := ih (n / base) _

theorem toBaseAux_length_succ (base fuel n : Nat) (acc : List Char)
    (hn : n ≠ 0) :
    acc.length + 1 ≤ (toBaseAux base (fuel + 1) n acc).length := by
  simp only [toBaseAux, if_neg hn]
  have h := toBaseAux_length_le base fuel (n / base) (digitChar (n % base) :: acc)
  simpa using h

theorem natToBase_ne_empty {base n : Nat} : natToBase base n ≠ "" := by
  unfold natToBase
  by_cases hn : n = 0
  · rw [if_pos hn]; decide
  · rw [if_neg hn]
    intro h
    have hdata : toBaseAux base 128 n [] = [] := congrArg String.data h
    have h1 := toBaseAux_length_succ base 127 n [] hn
    rw [show (127 : Nat) + 1 = 128 from rfl] at h1
    rw [hdata] at h1
    simp at h1

theorem natToBase_dotfree {base n : Nat} (hbase : base ≤ 16) (hpos : 0 < base) :
    ∀ c ∈ (natToBase base n).data, c ≠ '.' := by
  unfold natToBase
  by_cases hn : n = 0
  · rw [if_pos hn]
    intro c hc
    have hc0 : c = '0' := by simpa using hc
    subst hc0; decide
  · rw [if_neg hn]
    intro c hc
    rcases mem_toBaseAux hbase hpos 128 n [] c hc with h | ⟨d, hd, rfl⟩
    · simp at h
    · exact digitChar_lt_ne_dot hd

theorem hmacSha256Hex_ne_empty (key msg : String) : hmacSha256Hex key msg ≠ "" :=
  natToBase_ne_empty

theorem hmacSha256Hex_dotfree (key msg : String) :
    ∀ c ∈ (hmacSha256Hex key msg).data, c ≠ '.' :=
  natToBase_dotfree (by norm_num) (by norm_num)

theorem natToDec_ne_empty {n : Nat} : natToDec n ≠ "" := natToBase_ne_empty

theorem natToDec_dotfree {n : Nat} : ∀ c ∈ (natToDec n).data, c ≠ '.' :=
  natToBase_dotfree (by norm_num) (by norm_num)

theorem toBaseAux_append (base : Nat) :
    ∀ (fuel n : Nat) (acc : List Char),
      toBaseAux base fuel n acc = toBaseAux base fuel n [] ++ acc := by
  intro fuel
  induction fuel with
  | zero => intro n acc; simp [toBaseAux]
  | succ fuel ih =>
      intro n acc
      simp only [toBaseAux]
      by_cases hn : n = 0
      · rw [if_pos hn, if_pos hn]; simp
      · rw [if_neg hn, if_neg hn]
        rw [ih (n / base) (digitChar (n % base) :: acc),
          ih (n / base) [digitChar (n % base)]]
        simp

theorem digitsVal_append_singleton (l : List Char) (c : Char) :
    digitsVal (l ++ [c]) = digitsVal l * 10 + (c.toNat - 48) := by
  simp [digitsVal, List.foldl_append]

theorem toBaseAux_dec_val :
    ∀ (fuel n : Nat), n < 10 ^ fuel → n ≠ 0 →
      digitsVal (toBaseAux 10 fuel n []) = n := by
  intro fuel
  induction fuel with
  | zero => intro n hlt hne; omega
  | succ fuel ih =>
      intro n hlt hne
      simp only [toBaseAux, if_neg hne]
      rw [toBaseAux_append 10 fuel (n / 10) [digitChar (n % 10)]]
      rw [digitsVal_append_singleton]
      rw [digitChar_lt_toNat (Nat.mod_lt n (by norm_num))]
      by_cases h10 : n / 10 = 0
      · rw [h10, toBaseAux_zero]
        have hnlt : n < 10 := (Nat.div_eq_zero_iff (by norm_num)).mp h10
        have : n % 10 = n := Nat.mod_eq_of_lt hnlt
        simp [digitsVal]
        omega
      · rw [ih (n / 10) ((Nat.div_lt_iff_lt_mul (by norm_num)).mpr
          (by rw [← pow_succ]; exact hlt)) h10]
        omega

theorem mem_toBaseAux_dec {fuel n : Nat} {c : Char}
    (hc : c ∈ toBaseAux 10 fuel n []) : ∃ d, d < 10 ∧ c = digitChar d := by
  induction fuel generalizing n with
  | zero => simp [toBaseAux] at hc
  | succ fuel ih =>
      simp only [toBaseAux] at hc
      by_cases hn : n = 0
      · rw [if_pos hn] at hc; simp at hc
      · rw [if_neg hn, toBaseAux_append] at hc
        rcases List.mem_append.mp hc with h | h
        · exact ih h
        · have : c = digitChar (n % 10) := by simpa using h
          exact ⟨n % 10, Nat.mod_lt n (by norm_num), this⟩

theorem jsParseInt_natToDec (n : Nat) (hbound : n < 10 ^ 128) :
    jsParseInt (natToDec n) = some (n : Int) := by
  by_cases hn : n = 0
  · subst hn; decide
  · have hdata : (natToDec n).data = toBaseAux 10 128 n [] := by
      unfold natToDec natToBase
      rw [if_neg hn]
    have hdigits : ∀ c ∈ toBaseAux 10 128 n [], c.isDigit = true := by
      intro c hc
      rcases mem_toBaseAux_dec hc with ⟨d, hd, rfl⟩
      exact digitChar_lt_isDigit hd
    have hne : toBaseAux 10 128 n [] ≠ [] := by
      intro h
      have h1 := toBaseAux_length_succ 10 127 n [] hn
      rw [show (127 : Nat) + 1 = 128 from rfl, h] at h1
      simp at h1
    obtain ⟨c, rest, hcons⟩ : ∃ c rest, toBaseAux 10 128 n [] = c :: rest := by
      cases hl : toBaseAux 10 128 n [] with
      | nil => exact absurd hl hne
      | cons c rest => exact ⟨c, rest, rfl⟩
    have hcd : ∃ d, d < 10 ∧ c = digitChar d :=
      @mem_toBaseAux_dec 128 n c (by rw [hcons]; exact List.mem_cons_self _ _)
    obtain ⟨d, hd, rfl⟩ := hcd
    unfold jsParseInt
    rw [hdata, hcons]
    have hdrop : (digitChar d :: rest).dropWhile Char.isWhitespace =
        digitChar d :: rest := by
      rw [List.dropWhile_cons_of_neg]
      simp [digitChar_lt_not_ws hd]
    have htake : (digitChar d :: rest).takeWhile Char.isDigit =
        digitChar d :: rest := by
      apply List.takeWhile_eq_self_iff.mpr
      intro x hx
      apply hdigits
      rw [hcons]; exact hx
    have hval : digitsVal (digitChar d :: rest) = n := by
      rw [← hcons]
      exact toBaseAux_dec_val 128 n hbound hn
    simp only [hdrop, if_neg (digitChar_lt_ne_minus hd),
      if_neg (digitChar_lt_ne_plus hd), htake, hval, List.isEmpty_cons,
      Bool.false_eq_true, if_false, Option.map_some]
    rfl

/-! ## Helper lemmas: dot splitting -/

theorem splitOnDotChars_ne_nil (l : List Char) : splitOnDotChars l ≠ [] := by
  induction l with
  | nil => simp [splitOnDotChars]
  | cons c rest ih =>
      simp only [splitOnDotChars]
      by_cases hc : c = '.'
      · rw [if_pos hc]; simp
      · rw [if_neg hc]
        cases h : splitOnDotChars rest with
        | nil => simp
        | cons a t => simp

theorem splitOnDotChars_dotfree {l : List Char} (h : ∀ c ∈ l, c ≠ '.') :
    splitOnDotChars l = [l] := by
  induction l with
  | nil => rfl
  | cons c rest ih =>
      simp only [splitOnDotChars]
      rw [if_neg (h c (by simp))]
      rw [ih (fun x hx => h x (by simp [hx]))]

theorem splitOnDotChars_dot_cons (rest : List Char) :
    splitOnDotChars ('.' :: rest) = [] :: splitOnDotChars rest := by
  simp [splitOnDotChars]

theorem splitOnDotChars_append {xs : List Char} (hxs : ∀ c ∈ xs, c ≠ '.') :
    ∀ (rest : List Char) (h : List Char) (t : List (List Char)),
      splitOnDotChars rest = h :: t →
      splitOnDotChars (xs ++ rest) = (xs ++ h) :: t := by
  induction xs with
  | nil => intro rest h t hr; simpa using hr
  | cons c xs ih =>
      intro rest h t hr
      have hc : c ≠ '.' := hxs c (by simp)
      simp only [List.cons_append, splitOnDotChars, if_neg hc]
      rw [show xs.append rest = xs ++ rest from rfl]
      rw [ih (fun x hx => hxs x (by simp [hx])) rest h t hr]

theorem splitOnDotChars_length (l : List Char) :
    (splitOnDotChars l).length = l.count '.' + 1 := by
  induction l with
  | nil => simp [splitOnDotChars]
  | cons c rest ih =>
      simp only [splitOnDotChars]
      by_cases hc : c = '.'
      · rw [if_pos hc]
        simp [List.count_cons, hc, ih]
      · rw [if_neg hc]
        cases h : splitOnDotChars rest with
        | nil => exact absurd h (splitOnDotChars_ne_nil rest)
        | cons a t =>
            rw [h] at ih
            simp only [List.length_cons] at ih ⊢
            rw [List.count_cons]
            simp only [beq_iff_eq]
            rw [if_neg hc]
            omega

theorem splitOnDot_of_data {token v ts sg : String}
    (htok : token.data = v.data ++ '.' :: (ts.data ++ '.' :: sg.data))
    (hv : ∀ c ∈ v.data, c ≠ '.') (hts : ∀ c ∈ ts.data, c ≠ '.')
    (hsg : ∀ c ∈ sg.data, c ≠ '.') :
    splitOnDot token = [v, ts, sg] := by
  unfold splitOnDot
  rw [htok]
  have h3 : splitOnDotChars sg.data = [sg.data] := splitOnDotChars_dotfree hsg
  have h2 : splitOnDotChars (ts.data ++ '.' :: sg.data) = [ts.data, sg.data] := by
    have hd : splitOnDotChars ('.' :: sg.data) = [] :: [sg.data] := by
      rw [splitOnDotChars_dot_cons, h3]
    have := splitOnDotChars_append hts ('.' :: sg.data) [] [sg.data] hd
    simpa using this
  have h1 : splitOnDotChars (v.data ++ '.' :: (ts.data ++ '.' :: sg.data)) =
      [v.data, ts.data, sg.data] := by
    have hd : splitOnDotChars ('.' :: (ts.data ++ '.' :: sg.data)) =
        [] :: [ts.data, sg.data] := by
      rw [splitOnDotChars_dot_cons, h2]
    have := splitOnDotChars_append hv ('.' :: (ts.data ++ '.' :: sg.data))
      [] [ts.data, sg.data] hd
    simpa using this
  rw [h1]
  simp

/-! ## Helper lemmas: the CSRF verifier on well-shaped and ill-shaped input -/

theorem stringMk_eq_empty_iff (l : List Char) : String.mk l = "" ↔ l = [] := by
  constructor
  · intro h; exact congrArg String.data h
  · intro h; rw [h]

theorem verifyCsrfToken_parts (secret token v ts sg : String) (nowMs : Nat)
    (htok : token.data = v.data ++ '.' :: (ts.data ++ '.' :: sg.data))
    (hv : ∀ c ∈ v.data, c ≠ '.') (hts : ∀ c ∈ ts.data, c ≠ '.')
    (hsg : ∀ c ∈ sg.data, c ≠ '.')
    (hvne : v ≠ "") (htsne : ts ≠ "") (hsgne : sg ≠ "") :
    verifyCsrfToken secret nowMs token =
      (if sg.utf8ByteSize ≠ (hmacSha256Hex secret (v ++ "." ++ ts)).utf8ByteSize ∨
          sg ≠ hmacSha256Hex secret (v ++ "." ++ ts) then ⟨false, false⟩
      else
        match jsParseInt ts with
        | none => ⟨true, false⟩
        | some t =>
            if (nowMs : Int) - t > (CSRF_TOKEN_EXPIRY : Int) * 1000 then
              ⟨true, true⟩
            else ⟨true, false⟩) := by
  have htokne : token ≠ "" := by
    intro h
    have hd : token.data = [] := congrArg String.data h
    rw [htok] at hd
    simp at hd
  unfold verifyCsrfToken
  rw [if_neg htokne]
  rw [splitOnDot_of_data htok hv hts hsg]
  have hcond : ¬(v = "" ∨ ts = "" ∨ sg = "") := by
    push_neg
    exact ⟨hvne, htsne, hsgne⟩
  simp only [if_neg hcond]

theorem verifyCsrfToken_of_not_three (secret token : String) (nowMs : Nat)
    (h : (splitOnDot token).length ≠ 3) :
    verifyCsrfToken secret nowMs token = ⟨false, false⟩ := by
  unfold verifyCsrfToken
  by_cases he : token = ""
  · rw [if_pos he]
  · rw [if_neg he]
    cases hl : splitOnDot token with
    | nil => rfl
    | cons a l1 =>
        cases l1 with
        | nil => rfl
        | cons b l2 =>
            cases l2 with
            | nil => rfl
            | cons c l3 =>
                cases l3 with
                | nil => rw [hl] at h; simp at h
                | cons d l4 => rfl

theorem data_three_parts (a b c : String) :
    (a ++ "." ++ b ++ "." ++ c).data =
      a.data ++ '.' :: (b.data ++ '.' :: c.data) := by
  simp [String.data_append]

theorem string_eq_empty_of_data {s : String} (h : s.data = []) : s = "" := by
  have : String.mk s.data = "" := (stringMk_eq_empty_iff s.data).mpr h
  simpa using this

theorem mem_set_self {l : List Char} {j : Nat} (c : Char) (hj : j < l.length) :
    c ∈ l.set j c := by
  have h1 : (l.set j c)[j]? = some c := by
    rw [List.getElem?_set_self']
    simp [List.getElem?_eq_getElem hj]
  exact List.getElem?_mem h1

theorem set_ne_of_get_ne {l : List Char} {j : Nat} {c : Char}
    (hj : j < l.length) (hc : c ≠ l.get ⟨j, hj⟩) : l.set j c ≠ l := by
  intro h
  have h1 : (l.set j c)[j]? = some c := by
    rw [List.getElem?_set_self']
    simp [List.getElem?_eq_getElem hj]
  rw [h] at h1
  have h2 : l[j]? = some (l.get ⟨j, hj⟩) := by
    rw [List.getElem?_eq_getElem hj]
    simp
  rw [h1] at h2
  injection h2 with h3
  exact hc h3

/-- Claim C4: a generated CSRF token verifies as valid-and-fresh at any age
within the 24-hour window, as valid-but-expired at any age beyond it, and
any single-character mutation of the signature segment (replacing the
character at any position `j` by any different character) makes the
verifier return `valid := false`.  Hypotheses: the random value is a
nonempty dot-free string (it is a 64-character hex string in the source)
and the millisecond timestamp has at most 128 digits. -/
theorem claim_c4_csrf_generate_verify (secret rand : String)
    (nowMs evalMs : Nat)
    (hne : rand ≠ "") (hdot : ∀ c ∈ rand.data, c ≠ '.')
    (hbound : nowMs < 10 ^ 128) :
    (((evalMs : Int) - (nowMs : Int)) ≤ (CSRF_TOKEN_EXPIRY : Int) * 1000 →
      verifyCsrfToken secret evalMs (generateCsrfToken secret rand nowMs) =
        ⟨true, false⟩)
    ∧ (((evalMs : Int) - (nowMs : Int)) > (CSRF_TOKEN_EXPIRY : Int) * 1000 →
      verifyCsrfToken secret evalMs (generateCsrfToken secret rand nowMs) =
        ⟨true, true⟩)
    ∧ (∀ (j : Nat) (c : Char)
        (hj : j < (hmacSha256Hex secret
          (rand ++ "." ++ natToDec nowMs)).data.length),
        c ≠ (hmacSha256Hex secret (rand ++ "." ++ natToDec nowMs)).data.get ⟨j, hj⟩ →
        (verifyCsrfToken secret evalMs
          (rand ++ "." ++ natToDec nowMs ++ "." ++
            String.mk ((hmacSha256Hex secret
              (rand ++ "." ++ natToDec nowMs)).data.set j c))).valid =
          false) := by
  have htsne : natToDec nowMs ≠ "" := natToDec_ne_empty
  have htsdot := @natToDec_dotfree nowMs
  have hsgne : hmacSha256Hex secret (rand ++ "." ++ natToDec nowMs) ≠ "" :=
    hmacSha256Hex_ne_empty _ _
  have hsgdot := hmacSha256Hex_dotfree secret (rand ++ "." ++ natToDec nowMs)
  have hgen : generateCsrfToken secret rand nowMs =
      rand ++ "." ++ natToDec nowMs ++ "." ++
        hmacSha256Hex secret (rand ++ "." ++ natToDec nowMs) := rfl
  have hgendata : (generateCsrfToken secret rand nowMs).data =
      rand.data ++ '.' :: ((natToDec nowMs).data ++ '.' ::
        (hmacSha256Hex secret (rand ++ "." ++ natToDec nowMs)).data) := by
    rw [hgen, data_three_parts]
  refine ⟨?_, ?_, ?_⟩
  · intro hfresh
    rw [verifyCsrfToken_parts secret _ rand (natToDec nowMs)
      (hmacSha256Hex secret (rand ++ "." ++ natToDec nowMs)) evalMs
      hgendata hdot htsdot hsgdot hne htsne hsgne]
    rw [if_neg (by push_neg; exact ⟨rfl, rfl⟩)]
    simp only [jsParseInt_natToDec nowMs hbound]
    rw [if_neg (not_lt.mpr hfresh)]
  · intro hexp
    rw [verifyCsrfToken_parts secret _ rand (natToDec nowMs)
      (hmacSha256Hex secret (rand ++ "." ++ natToDec nowMs)) evalMs
      hgendata hdot htsdot hsgdot hne htsne hsgne]
    rw [if_neg (by push_neg; exact ⟨rfl, rfl⟩)]
    simp only [jsParseInt_natToDec nowMs hbound]
    rw [if_pos hexp]
  · intro j c hj hc
    by_cases hcd : c = '.'
    · subst hcd
      rw [verifyCsrfToken_of_not_three]
      unfold splitOnDot
      rw [List.length_map, data_three_parts, splitOnDotChars_length]
      have h1 : rand.data.count '.' = 0 :=
        List.count_eq_zero.mpr (fun hm => hdot '.' hm rfl)
      have h2 : (natToDec nowMs).data.count '.' = 0 :=
        List.count_eq_zero.mpr (fun hm => htsdot '.' hm rfl)
      have hmemset : '.' ∈ (hmacSha256Hex secret
          (rand ++ "." ++ natToDec nowMs)).data.set j '.' :=
        mem_set_self '.' hj
      have h3 : 0 < ((hmacSha256Hex secret
          (rand ++ "." ++ natToDec nowMs)).data.set j '.').count '.' :=
        List.count_pos_iff.mpr hmemset
      have hdm : (String.mk ((hmacSha256Hex secret
          (rand ++ "." ++ natToDec nowMs)).data.set j '.')).data =
          (hmacSha256Hex secret (rand ++ "." ++ natToDec nowMs)).data.set j '.' :=
        rfl
      simp only [hdm, List.count_append, List.count_cons_self, h1, h2]
      omega
    · have hsgX : ∀ x ∈ (hmacSha256Hex secret
          (rand ++ "." ++ natToDec nowMs)).data.set j c, x ≠ '.' := by
        intro x hx
        rcases List.mem_or_eq_of_mem_set hx with hmem | rfl
        · exact hsgdot x hmem
        · exact hcd
      have hsgXne : String.mk ((hmacSha256Hex secret
          (rand ++ "." ++ natToDec nowMs)).data.set j c) ≠ "" := by
        rw [Ne, stringMk_eq_empty_iff]
        intro h
        have hlen := congrArg List.length h
        simp only [List.length_set, List.length_nil] at hlen
        exact absurd hlen (by omega)
      have hneq : String.mk ((hmacSha256Hex secret
          (rand ++ "." ++ natToDec nowMs)).data.set j c) ≠
          hmacSha256Hex secret (rand ++ "." ++ natToDec nowMs) := by
        intro h
        have hdata := congrArg String.data h
        exact set_ne_of_get_ne hj hc hdata
      have htokdata : (rand ++ "." ++ natToDec nowMs ++ "." ++
          String.mk ((hmacSha256Hex secret
            (rand ++ "." ++ natToDec nowMs)).data.set j c)).data =
          rand.data ++ '.' :: ((natToDec nowMs).data ++ '.' ::
            (String.mk ((hmacSha256Hex secret
              (rand ++ "." ++ natToDec nowMs)).data.set j c)).data) :=
        data_three_parts _ _ _
      rw [verifyCsrfToken_parts secret _ rand (natToDec nowMs)
        (String.mk ((hmacSha256Hex secret
          (rand ++ "." ++ natToDec nowMs)).data.set j c)) evalMs
        htokdata hdot htsdot (by simpa using hsgX) hne htsne hsgXne]
      rw [if_pos (Or.inr hneq)]

/-- Witness for claim C4 at concrete inputs: a token generated at
millisecond 0 is fresh at age 0, expired at age `86400001` ms, and a
mutation of the first signature character invalidates it. -/
theorem claim_c4_csrf_generate_verify_witness :
    (verifyCsrfToken "sec" 5 (generateCsrfToken "sec" "ab" 5) =
      ⟨true, false⟩)
    ∧ (verifyCsrfToken "sec" 86400001 (generateCsrfToken "sec" "ab" 0) =
      ⟨true, true⟩)
    ∧ ((verifyCsrfToken "sec" 5
        ("ab" ++ "." ++ natToDec 0 ++ "." ++
          String.mk ((hmacSha256Hex "sec"
            ("ab" ++ "." ++ natToDec 0)).data.set 0 'z'))).valid = false) := by
  refine ⟨?_, ?_, ?_⟩
  · exact (claim_c4_csrf_generate_verify "sec" "ab" 5 5 (by decide) (by decide)
      (by norm_num)).1 (by decide)
  · exact (claim_c4_csrf_generate_verify "sec" "ab" 0 86400001 (by decide)
      (by decide) (by norm_num)).2.1 (by decide)
  · exact (claim_c4_csrf_generate_verify "sec" "ab" 0 5 (by decide) (by decide)
      (by norm_num)).2.2 0 'z' (by decide) (by decide)

/-- Claim C5: for a non-exempt request (state-changing method, non-allowlisted
path) whose cookie and header CSRF tokens are equal (hence byte-equal and
byte-length-equal) and nonempty, the double-submit decision is exactly the
`valid` flag of the cookie token's verification — the `expired` flag plays
no role, so an expired-but-signature-valid cookie token passes. -/
theorem claim_c5_validate_ignores_expiry (secret : String) (nowMs : Nat)
    (method pathname ct : String)
    (hm : method ∉ ["GET", "HEAD", "OPTIONS", "TRACE"])
    (hp : pathname ∉ SKIP_PATHS) (hct : ct ≠ "") :
    validateCsrfToken secret nowMs method pathname (some ct) (some ct) =
      (verifyCsrfToken secret nowMs ct).valid := by
  unfold validateCsrfToken
  rw [if_neg]
  · simp only [Option.getD_some]
    rw [if_neg (by simp [hct])]
    rw [if_neg (by simp)]
  · rintro (h | h)
    · exact hm (List.elem_iff.mp h)
    · exact hp (List.elem_iff.mp h)

/-- Witness for claim C5: a token generated at millisecond 0, presented at
age `86400001` ms (beyond the 24-hour window) on a `POST` to a
non-allowlisted path, verifies as valid-but-expired yet passes the
double-submit validation. -/
theorem claim_c5_validate_ignores_expiry_witness :
    (validateCsrfToken "sec" 86400001 "POST" "/api/v1/bookings"
        (some (generateCsrfToken "sec" "ab" 0))
        (some (generateCsrfToken "sec" "ab" 0)) =
      (verifyCsrfToken "sec" 86400001 (generateCsrfToken "sec" "ab" 0)).valid)
    ∧ verifyCsrfToken "sec" 86400001 (generateCsrfToken "sec" "ab" 0) =
      ⟨true, true⟩ := by
  refine ⟨?_, by decide⟩
  exact claim_c5_validate_ignores_expiry "sec" 86400001 "POST"
    "/api/v1/bookings" (generateCsrfToken "sec" "ab" 0) (by decide) (by decide)
    (by decide)

theorem verifyToken_jwt (secret : String) (now : Nat) (alg : String)
    (cs : List (String × String)) (iat exp : Nat) (sig : String) :
    verifyToken secret now (Tok.jwt alg cs iat exp sig) =
      (if alg ≠ "HS256" then none
      else if sig ≠ hmacSha256Hex secret (jwtSigningInput alg cs iat exp) then
        none
      else if exp ≤ now then none
      else some ⟨cs, iat, exp⟩) := rfl

/-- Claim C3: verifying a token signed with the same secret returns a
payload whose claim set is exactly the signed payload (with the `iat` and
`exp` registered claims alongside) whenever the elapsed time is below the
TTL, and `none` once the elapsed time reaches the TTL; and `verifyToken`
is a total function returning the same `none` — with no distinction of
cause — on a malformed token, a wrong algorithm, a wrong signature, and an
expired token. -/
theorem claim_c3_token_round_trip (secret : String)
    (claims : List (String × String)) (ttl t0 elapsed now : Nat) :
    (elapsed < ttl →
      verifyToken secret (t0 + elapsed) (signToken secret claims ttl t0) =
        some ⟨claims, t0, t0 + ttl⟩)
    ∧ (ttl ≤ elapsed →
      verifyToken secret (t0 + elapsed) (signToken secret claims ttl t0) =
        none)
    ∧ (∀ raw, verifyToken secret now (Tok.malformed raw) = none)
    ∧ (∀ alg cs iat exp sig, alg ≠ "HS256" →
      verifyToken secret now (Tok.jwt alg cs iat exp sig) = none)
    ∧ (∀ cs iat exp sig,
      sig ≠ hmacSha256Hex secret (jwtSigningInput "HS256" cs iat exp) →
      verifyToken secret now (Tok.jwt "HS256" cs iat exp sig) = none)
    ∧ (∀ cs iat exp sig, exp ≤ now →
      verifyToken secret now (Tok.jwt "HS256" cs iat exp sig) = none) := by
  refine ⟨?_, ?_, ?_, ?_, ?_, ?_⟩
  · intro hlt
    unfold signToken
    rw [verifyToken_jwt]
    rw [if_neg (by simp)]
    rw [if_neg (by simp)]
    rw [if_neg (by omega)]
  · intro hge
    unfold signToken
    rw [verifyToken_jwt]
    rw [if_neg (by simp)]
    rw [if_neg (by simp)]
    rw [if_pos (by omega)]
  · intro raw; rfl
  · intro alg cs iat exp sig halg
    rw [verifyToken_jwt]
    rw [if_pos halg]
  · intro cs iat exp sig hsig
    rw [verifyToken_jwt]
    rw [if_neg (by simp)]
    rw [if_pos hsig]
  · intro cs iat exp sig hexp
    rw [verifyToken_jwt]
    rw [if_neg (by simp)]
    by_cases hsig : sig = hmacSha256Hex secret (jwtSigningInput "HS256" cs iat exp)
    · rw [if_neg (by simp [hsig])]
      rw [if_pos hexp]
    · rw [if_pos hsig]

/-- Witness for claim C3 at concrete inputs: a 900-second token is
verifiable at 899 seconds and dead at 900; a tampered signature and a
wrong algorithm are rejected. -/
theorem claim_c3_token_round_trip_witness :
    (verifyToken "sec" (0 + 899) (signToken "sec" [("userId", "u1")] 900 0) =
      some ⟨[("userId", "u1")], 0, 0 + 900⟩)
    ∧ (verifyToken "sec" (0 + 900) (signToken "sec" [("userId", "u1")] 900 0) =
      none)
    ∧ (verifyToken "sec" 0 (Tok.malformed "garbage") = none)
    ∧ (verifyToken "sec" 0 (Tok.jwt "none" [("userId", "u1")] 0 900 "x") =
      none)
    ∧ (verifyToken "sec" 0 (Tok.jwt "HS256" [("userId", "u1")] 0 900 "x") =
      none) := by
  refine ⟨?_, ?_, ?_, ?_, ?_⟩
  · exact (claim_c3_token_round_trip "sec" [("userId", "u1")] 900 0 899
      0).1 (by norm_num)
  · exact (claim_c3_token_round_trip "sec" [("userId", "u1")] 900 0 900
      0).2.1 (by norm_num)
  · exact (claim_c3_token_round_trip "sec" [("userId", "u1")] 900 0 900
      0).2.2.1 "garbage"
  · exact (claim_c3_token_round_trip "sec" [("userId", "u1")] 900 0 900
      0).2.2.2.1 "none" [("userId", "u1")] 0 900 "x" (by decide)
  · exact (claim_c3_token_round_trip "sec" [("userId", "u1")] 900 0 900
      0).2.2.2.2.1 [("userId", "u1")] 0 900 "x" (by decide)

/-! ## Helper lemmas: session lookup and in-place rotation -/

theorem findIndexRT_eq_none {tok : Tok} {l : List Session}
    (h : ∀ s ∈ l, s.refreshToken ≠ tok) : findIndexRT tok l = none := by
  induction l with
  | nil => rfl
  | cons s rest ih =>
      unfold findIndexRT
      rw [if_neg (h s (by simp))]
      rw [ih (fun x hx => h x (by simp [hx]))]
      rfl

theorem modifyIdx_get?_ne {α : Type} (f : α → α) :
    ∀ (i j : Nat) (l : List α), j ≠ i →
      (modifyIdx f i l).get? j = l.get? j := by
  intro i
  induction i with
  | zero =>
      intro j l hj
      cases l with
      | nil => rfl
      | cons a rest =>
          cases j with
          | zero => exact absurd rfl hj
          | succ j => rfl
  | succ i ih =>
      intro j l hj
      cases l with
      | nil => rfl
      | cons a rest =>
          cases j with
          | zero => rfl
          | succ j =>
              simp only [modifyIdx, List.get?]
              exact ih j rest (by omega)

theorem modifyIdx_get?_self {α : Type} (f : α → α) :
    ∀ (i : Nat) (l : List α) (a : α), l.get? i = some a →
      (modifyIdx f i l).get? i = some (f a) := by
  intro i
  induction i with
  | zero =>
      intro l a hl
      cases l with
      | nil => simp [List.get?] at hl
      | cons b rest =>
          simp only [List.get?] at hl
          injection hl with hba
          subst hba
          rfl
  | succ i ih =>
      intro l a hl
      cases l with
      | nil => simp [List.get?] at hl
      | cons b rest =>
          simp only [List.get?] at hl
          simp only [modifyIdx, List.get?]
          exact ih rest a hl

/-- Claim C1: for a refresh request whose cookie token verifies (signature
and expiry), whose `userId` claim is a nonempty string resolving to an
existing user, and whose token matches no session's `refreshToken` by
exact value, the handler's full effect trace is: first persist the user
with an emptied session list, then respond with the 403 forbidden-class
security-alert error — the revocation precedes the response in the trace,
and they are the only effects (in particular no cookies are issued). -/
theorem claim_c1_refresh_reuse_revokes_all (secret : String) (now : Nat)
    (isProd : Bool) (tok : Tok) (findById : String → Option User)
    (payload : JwtPayload) (uid : String) (user : User)
    (hver : verifyToken secret now tok = some payload)
    (huid : payload.claims.lookup "userId" = some uid)
    (hne : uid ≠ "")
    (huser : findById uid = some user)
    (hreuse : ∀ s ∈ user.sessions, s.refreshToken ≠ tok) :
    refreshPost secret now isProd (some tok) findById =
      [Effect.dbSave { user with sessions := [] },
       Effect.respond (apiError HTTP_STATUS.FORBIDDEN.message
         HTTP_STATUS.FORBIDDEN.code
         [⟨"Security Alert: reused refresh token detected. All sessions have been revoked.",
           none⟩] now ErrType.client_error)] := by
  have hidx : findIndexRT tok user.sessions = none := findIndexRT_eq_none hreuse
  unfold refreshPost
  simp [hver, huid, hne, hidx, huser]

/-- Witness for claim C1: a verifiable 7-day token signed at second 0,
presented at second 1000 to a user whose only session holds a different
(rotated) token value, triggers the revoke-then-403 trace. -/
theorem claim_c1_refresh_reuse_revokes_all_witness :
    refreshPost "s" 1000 false
        (some (signToken "s" [("userId", "u1")] 604800 0))
        (fun i => if i = "u1" then
          some ⟨"u1", "A", "a@x.com", "h",
            [⟨signToken "s" [("userId", "u1")] 604800 50, "ip", "os", "br",
              "loc", "credential", 50⟩]⟩
        else none) =
      [Effect.dbSave ⟨"u1", "A", "a@x.com", "h", []⟩,
       Effect.respond (apiError HTTP_STATUS.FORBIDDEN.message
         HTTP_STATUS.FORBIDDEN.code
         [⟨"Security Alert: reused refresh token detected. All sessions have been revoked.",
           none⟩] 1000 ErrType.client_error)] := by
  exact claim_c1_refresh_reuse_revokes_all "s" 1000 false
    (signToken "s" [("userId", "u1")] 604800 0)
    (fun i => if i = "u1" then
      some ⟨"u1", "A", "a@x.com", "h",
        [⟨signToken "s" [("userId", "u1")] 604800 50, "ip", "os", "br",
          "loc", "credential", 50⟩]⟩
    else none)
    ⟨[("userId", "u1")], 0, 604800⟩ "u1"
    ⟨"u1", "A", "a@x.com", "h",
      [⟨signToken "s" [("userId", "u1")] 604800 50, "ip", "os", "br",
        "loc", "credential", 50⟩]⟩
    (by decide) (by decide) (by decide) (by decide) (by decide)

/-- Claim C2: on a matched session at index `i`, the refresh handler saves
the user with *only* `sessions[i].refreshToken` replaced by the newly
signed refresh token — the rotated session keeps its `ip`, `os`,
`browser`, `location`, `type` and `createdAt`, and every other index of
the session list is unchanged — and sets `accessToken` / `refreshToken`
cookies whose flags and max-ages (900 s and 604800 s) are exactly those a
successful login sets for the same user at the same instant. -/
theorem claim_c2_refresh_rotation_frame (secret : String) (now : Nat)
    (isProd : Bool) (tok : Tok) (findById : String → Option User)
    (payload : JwtPayload) (uid : String) (user : User) (i : Nat)
    (hver : verifyToken secret now tok = some payload)
    (huid : payload.claims.lookup "userId" = some uid)
    (hne : uid ≠ "")
    (huser : findById uid = some user)
    (hmatch : findIndexRT tok user.sessions = some i) :
    (refreshPost secret now isProd (some tok) findById =
      [Effect.dbSave { user with sessions := modifyIdx (fun s => { s with refreshToken := signToken secret [("userId", user.id)] 604800 now }) i user.sessions },
       Effect.setCookie ⟨"accessToken",
         signToken secret [("userId", user.id)] 900 now, true, isProd,
         "strict", 15 * 60, "/"⟩,
       Effect.setCookie ⟨"refreshToken",
         signToken secret [("userId", user.id)] 604800 now, true, isProd,
         "strict", 7 * 24 * 60 * 60, "/"⟩,
       Effect.respond (apiSuccess HTTP_STATUS.OK.message HTTP_STATUS.OK.code
         none "Token refreshed successfully" now)])
    ∧ (∀ j, j ≠ i →
        (modifyIdx (fun s => { s with refreshToken := signToken secret [("userId", user.id)] 604800 now }) i user.sessions).get? j = user.sessions.get? j)
    ∧ (∀ s, user.sessions.get? i = some s →
        (modifyIdx (fun s => { s with refreshToken := signToken secret [("userId", user.id)] 604800 now }) i user.sessions).get? i =
          some ⟨signToken secret [("userId", user.id)] 604800 now,
            s.ip, s.os, s.browser, s.location, s.type, s.createdAt⟩)
    ∧ (∀ (body : LoginBody) (findByEmail : String → Option User)
        (bcryptCompare : String → String → Bool) (si : SessionInfo)
        (u2 : User),
        findByEmail body.email = some u2 →
        bcryptCompare body.password u2.password = true →
        u2.id = user.id →
        cookiesOf (refreshPost secret now isProd (some tok) findById) =
          cookiesOf (loginPostV1 secret now isProd true true (Except.ok body)
            findByEmail bcryptCompare si)) := by
  have htrace : refreshPost secret now isProd (some tok) findById =
      [Effect.dbSave { user with sessions := modifyIdx (fun s => { s with refreshToken := signToken secret [("userId", user.id)] 604800 now }) i user.sessions },
       Effect.setCookie ⟨"accessToken",
         signToken secret [("userId", user.id)] 900 now, true, isProd,
         "strict", 15 * 60, "/"⟩,
       Effect.setCookie ⟨"refreshToken",
         signToken secret [("userId", user.id)] 604800 now, true, isProd,
         "strict", 7 * 24 * 60 * 60, "/"⟩,
       Effect.respond (apiSuccess HTTP_STATUS.OK.message HTTP_STATUS.OK.code
         none "Token refreshed successfully" now)] := by
    unfold refreshPost
    simp [hver, huid, hne, huser, hmatch]
  refine ⟨htrace, ?_, ?_, ?_⟩
  · intro j hj
    exact modifyIdx_get?_ne _ i j user.sessions hj
  · intro s hs
    exact modifyIdx_get?_self _ i user.sessions s hs
  · intro body findByEmail bcryptCompare si u2 hfe hcmp hid
    rw [htrace]
    unfold loginPostV1
    simp [hfe, hcmp, hid, cookiesOf]

/-- Witness for claim C2 at a concrete matched session (index 0). -/
theorem claim_c2_refresh_rotation_frame_witness :
    refreshPost "s" 1000 false
        (some (signToken "s" [("userId", "u1")] 604800 0))
        (fun i => if i = "u1" then
          some ⟨"u1", "A", "a@x.com", "h",
            [⟨signToken "s" [("userId", "u1")] 604800 0, "ip", "os", "br",
              "loc", "credential", 50⟩]⟩
        else none) =
      [Effect.dbSave { id := "u1", name := "A", email := "a@x.com", password := "h", sessions := modifyIdx (fun s => { s with refreshToken := signToken "s" [("userId", "u1")] 604800 1000 }) 0 [⟨signToken "s" [("userId", "u1")] 604800 0, "ip", "os", "br", "loc", "credential", 50⟩] },
       Effect.setCookie ⟨"accessToken",
         signToken "s" [("userId", "u1")] 900 1000, true, false,
         "strict", 15 * 60, "/"⟩,
       Effect.setCookie ⟨"refreshToken",
         signToken "s" [("userId", "u1")] 604800 1000, true, false,
         "strict", 7 * 24 * 60 * 60, "/"⟩,
       Effect.respond (apiSuccess HTTP_STATUS.OK.message HTTP_STATUS.OK.code
         none "Token refreshed successfully" 1000)] := by
  exact (claim_c2_refresh_rotation_frame "s" 1000 false
    (signToken "s" [("userId", "u1")] 604800 0)
    (fun i => if i = "u1" then
      some ⟨"u1", "A", "a@x.com", "h",
        [⟨signToken "s" [("userId", "u1")] 604800 0, "ip", "os", "br",
          "loc", "credential", 50⟩]⟩
    else none)
    ⟨[("userId", "u1")], 0, 604800⟩ "u1"
    ⟨"u1", "A", "a@x.com", "h",
      [⟨signToken "s" [("userId", "u1")] 604800 0, "ip", "os", "br",
        "loc", "credential", 50⟩]⟩ 0
    (by decide) (by decide) (by decide) (by decide) (by decide)).1

/-- Claim C6: past both rate limits and validation, a login for an unknown
email and a login with a wrong password for an existing user produce the
identical single-response trace — the same 401 envelope with the generic
detail `Invalid credentials` (type, code, status and errors all equal, the
timestamps being each run's clock); with equal clocks the responses are
equal outright, so the two failure causes are indistinguishable from the
response. -/
theorem claim_c6_login_failures_indistinguishable (secret : String)
    (now1 now2 : Nat) (isProd1 isProd2 : Bool) (body1 body2 : LoginBody)
    (f1 f2 : String → Option User) (cmp1 cmp2 : String → String → Bool)
    (si1 si2 : SessionInfo) (u2 : User)
    (hnouser : f1 body1.email = none)
    (huser : f2 body2.email = some u2)
    (hbadpw : cmp2 body2.password u2.password = false) :
    (loginPostV1 secret now1 isProd1 true true (Except.ok body1) f1 cmp1 si1 =
      [Effect.respond (apiError HTTP_STATUS.UNAUTHORIZED.message
        HTTP_STATUS.UNAUTHORIZED.code [⟨"Invalid credentials", none⟩] now1
        ErrType.client_error)])
    ∧ (loginPostV1 secret now2 isProd2 true true (Except.ok body2) f2 cmp2 si2 =
      [Effect.respond (apiError HTTP_STATUS.UNAUTHORIZED.message
        HTTP_STATUS.UNAUTHORIZED.code [⟨"Invalid credentials", none⟩] now2
        ErrType.client_error)])
    ∧ (now1 = now2 →
      loginPostV1 secret now1 isProd1 true true (Except.ok body1) f1 cmp1 si1 =
        loginPostV1 secret now2 isProd2 true true (Except.ok body2) f2 cmp2
          si2) := by
  have h1 : loginPostV1 secret now1 isProd1 true true (Except.ok body1) f1
      cmp1 si1 =
      [Effect.respond (apiError HTTP_STATUS.UNAUTHORIZED.message
        HTTP_STATUS.UNAUTHORIZED.code [⟨"Invalid credentials", none⟩] now1
        ErrType.client_error)] := by
    unfold loginPostV1
    simp [hnouser]
  have h2 : loginPostV1 secret now2 isProd2 true true (Except.ok body2) f2
      cmp2 si2 =
      [Effect.respond (apiError HTTP_STATUS.UNAUTHORIZED.message
        HTTP_STATUS.UNAUTHORIZED.code [⟨"Invalid credentials", none⟩] now2
        ErrType.client_error)] := by
    unfold loginPostV1
    simp [huser, hbadpw]
  refine ⟨h1, h2, ?_⟩
  intro hnow
  rw [h1, h2, hnow]

/-- Witness for claim C6: a concrete unknown-email run and a concrete
wrong-password run at the same instant produce equal traces. -/
theorem claim_c6_login_failures_indistinguishable_witness :
    loginPostV1 "s" 7 false true true
        (Except.ok ⟨"ghost@x.com", "pw", none⟩) (fun _ => none)
        (fun _ _ => false) ⟨"ip", "os", "br", "loc"⟩ =
      loginPostV1 "s" 7 false true true
        (Except.ok ⟨"a@x.com", "wrong", none⟩)
        (fun e => if e = "a@x.com" then
          some ⟨"u1", "A", "a@x.com", "hash", []⟩ else none)
        (fun _ _ => false) ⟨"ip2", "os2", "br2", "loc2"⟩ :=
  (claim_c6_login_failures_indistinguishable "s" 7 7 false false
    ⟨"ghost@x.com", "pw", none⟩ ⟨"a@x.com", "wrong", none⟩ (fun _ => none)
    (fun e => if e = "a@x.com" then
      some ⟨"u1", "A", "a@x.com", "hash", []⟩ else none)
    (fun _ _ => false) (fun _ _ => false) ⟨"ip", "os", "br", "loc"⟩
    ⟨"ip2", "os2", "br2", "loc2"⟩ ⟨"u1", "A", "a@x.com", "hash", []⟩
    (by decide) (by decide) (by decide)).2.2 rfl

/-- Claim C7: past the IP rate limit, validation and the honeypot check
(empty or absent `_honey`), registering an already-taken email answers
with a success envelope carrying `data: null` (same shape as a fresh
registration's success) and performs *no* create effect, while a fresh
email produces exactly one create effect followed by the 201 success
envelope, also with `data: null` — so the two outcomes differ only in the
create effect (and the 200/201 status and message of the shared success
shape). -/
theorem claim_c7_register_enumeration_safe (now : Nat) (body : RegisterBody)
    (findByEmail : String → Option User)
    (hhoney : body._honey = none ∨ body._honey = some "") :
    (∀ u, findByEmail body.email = some u →
      registerPostV1 now true (Except.ok body) findByEmail =
        [Effect.respond (apiSuccess HTTP_STATUS.OK.message HTTP_STATUS.OK.code
          none "If this email is valid, you will be able to log in." now)])
    ∧ (findByEmail body.email = none →
      registerPostV1 now true (Except.ok body) findByEmail =
        [Effect.dbCreate body.name body.email body.password,
         Effect.respond (apiSuccess HTTP_STATUS.CREATED.message
           HTTP_STATUS.CREATED.code none
           "Registration successful. Please log in." now)]) := by
  constructor
  · intro u hu
    unfold registerPostV1
    rcases hhoney with h | h <;> simp [h, hu]
  · intro hnone
    unfold registerPostV1
    rcases hhoney with h | h <;> simp [h, hnone]

/-- Witness for claim C7: the same registration body against a database
where the email is taken (no create) and where it is fresh (one create). -/
theorem claim_c7_register_enumeration_safe_witness :
    (registerPostV1 3 true (Except.ok ⟨"A", "a@x.com", "longenough1", none⟩)
        (fun e => if e = "a@x.com" then
          some ⟨"u1", "A", "a@x.com", "hash", []⟩ else none) =
      [Effect.respond (apiSuccess HTTP_STATUS.OK.message HTTP_STATUS.OK.code
        none "If this email is valid, you will be able to log in." 3)])
    ∧ (registerPostV1 3 true (Except.ok ⟨"A", "a@x.com", "longenough1", none⟩)
        (fun _ => none) =
      [Effect.dbCreate "A" "a@x.com" "longenough1",
       Effect.respond (apiSuccess HTTP_STATUS.CREATED.message
         HTTP_STATUS.CREATED.code none
         "Registration successful. Please log in." 3)]) := by
  constructor
  · exact (claim_c7_register_enumeration_safe 3
      ⟨"A", "a@x.com", "longenough1", none⟩
      (fun e => if e = "a@x.com" then
        some ⟨"u1", "A", "a@x.com", "hash", []⟩ else none)
      (Or.inl rfl)).1 ⟨"u1", "A", "a@x.com", "hash", []⟩ (by decide)
  · exact (claim_c7_register_enumeration_safe 3
      ⟨"A", "a@x.com", "longenough1", none⟩ (fun _ => none)
      (Or.inl rfl)).2 rfl

/-- Counterexample to claim C8 as stated: a successful v1 login whose
validated body sets `returnToken := some true` still responds with
`data: null` — the v1 route never reads `returnToken`, so the raw tokens
are not returned in the body. -/
theorem claim_c8_counterexample_v1_ignores_returnToken :
    loginPostV1 "s" 5 false true true
        (Except.ok ⟨"a@x.com", "pw", some true⟩)
        (fun e => if e = "a@x.com" then
          some ⟨"u1", "A", "a@x.com", "hash", []⟩ else none)
        (fun p h => decide (p = "pw") && decide (h = "hash"))
        ⟨"ip", "os", "br", "loc"⟩ =
      [Effect.dbSave ⟨"u1", "A", "a@x.com", "hash",
         [⟨signToken "s" [("userId", "u1")] 604800 5, "ip", "os", "br",
           "loc", "credential", 5⟩]⟩,
       Effect.setCookie ⟨"accessToken", signToken "s" [("userId", "u1")] 900 5,
         true, false, "strict", 15 * 60, "/"⟩,
       Effect.setCookie ⟨"refreshToken",
         signToken "s" [("userId", "u1")] 604800 5, true, false, "strict",
         7 * 24 * 60 * 60, "/"⟩,
       Effect.respond (apiSuccess HTTP_STATUS.OK.message HTTP_STATUS.OK.code
         none "Login successful" 5)] := by
  decide

/-- Claim C8 as amended: the `returnToken` contract holds on the legacy
`/api/auth/login` route — a truthy `returnToken` puts the raw
`{accessToken, refreshToken}` pair in `data`, otherwise `data` is null —
while the current v1 login route always responds with `data: null`,
ignoring `returnToken`. -/
theorem claim_c8_amended_returnToken (secret : String) (now : Nat)
    (isProd : Bool) (body : LoginBody) (f0 : String → Option UserV0)
    (f1 : String → Option User) (cmp : String → String → Bool)
    (si : SessionInfo) (u0 : UserV0) (u1 : User)
    (h0 : f0 body.email = some u0)
    (hc0 : cmp body.password u0.password = true)
    (h1 : f1 body.email = some u1)
    (hc1 : cmp body.password u1.password = true) :
    (body.returnToken = some true →
      loginPostV0 secret now isProd true true (Except.ok body) f0 cmp =
        [EffectV0.dbSave { u0 with refreshToken := some (signToken secret [("userId", u0.id)] 604800 now) },
         EffectV0.setCookie ⟨"accessToken",
           signToken secret [("userId", u0.id)] 900 now, true, isProd,
           "strict", 15 * 60, "/"⟩,
         EffectV0.setCookie ⟨"refreshToken",
           signToken secret [("userId", u0.id)] 604800 now, true, isProd,
           "strict", 7 * 24 * 60 * 60, "/"⟩,
         EffectV0.respond (apiSuccess HTTP_STATUS.OK.message
           HTTP_STATUS.OK.code
           (some (signToken secret [("userId", u0.id)] 900 now,
             signToken secret [("userId", u0.id)] 604800 now))
           "Login successful" now)])
    ∧ (body.returnToken.getD false = false →
      loginPostV0 secret now isProd true true (Except.ok body) f0 cmp =
        [EffectV0.dbSave { u0 with refreshToken := some (signToken secret [("userId", u0.id)] 604800 now) },
         EffectV0.setCookie ⟨"accessToken",
           signToken secret [("userId", u0.id)] 900 now, true, isProd,
           "strict", 15 * 60, "/"⟩,
         EffectV0.setCookie ⟨"refreshToken",
           signToken secret [("userId", u0.id)] 604800 now, true, isProd,
           "strict", 7 * 24 * 60 * 60, "/"⟩,
         EffectV0.respond (apiSuccess HTTP_STATUS.OK.message
           HTTP_STATUS.OK.code none "Login successful" now)])
    ∧ (loginPostV1 secret now isProd true true (Except.ok body) f1 cmp si =
        [Effect.dbSave { u1 with sessions := u1.sessions ++
            [⟨signToken secret [("userId", u1.id)] 604800 now, si.ip, si.os,
              si.browser, si.location, "credential", now⟩] },
         Effect.setCookie ⟨"accessToken",
           signToken secret [("userId", u1.id)] 900 now, true, isProd,
           "strict", 15 * 60, "/"⟩,
         Effect.setCookie ⟨"refreshToken",
           signToken secret [("userId", u1.id)] 604800 now, true, isProd,
           "strict", 7 * 24 * 60 * 60, "/"⟩,
         Effect.respond (apiSuccess HTTP_STATUS.OK.message HTTP_STATUS.OK.code
           none "Login successful" now)]) := by
  refine ⟨?_, ?_, ?_⟩
  · intro hrt
    unfold loginPostV0
    simp [h0, hc0, hrt]
  · intro hrt
    unfold loginPostV0
    simp [h0, hc0, hrt]
  · unfold loginPostV1
    simp [h1, hc1]

/-- Witness for the amended claim C8: a concrete legacy login with
`returnToken := some true` returns the raw token pair in `data`. -/
theorem claim_c8_amended_returnToken_witness :
    loginPostV0 "s" 5 false true true
        (Except.ok ⟨"a@x.com", "pw", some true⟩)
        (fun e => if e = "a@x.com" then
          some ⟨"u1", "A", "a@x.com", "hash", none⟩ else none)
        (fun p h => decide (p = "pw") && decide (h = "hash")) =
      [EffectV0.dbSave ⟨"u1", "A", "a@x.com", "hash",
         some (signToken "s" [("userId", "u1")] 604800 5)⟩,
       EffectV0.setCookie ⟨"accessToken", signToken "s" [("userId", "u1")] 900 5,
         true, false, "strict", 15 * 60, "/"⟩,
       EffectV0.setCookie ⟨"refreshToken",
         signToken "s" [("userId", "u1")] 604800 5, true, false, "strict",
         7 * 24 * 60 * 60, "/"⟩,
       EffectV0.respond (apiSuccess HTTP_STATUS.OK.message HTTP_STATUS.OK.code
         (some (signToken "s" [("userId", "u1")] 900 5,
           signToken "s" [("userId", "u1")] 604800 5))
         "Login successful" 5)] :=
  (claim_c8_amended_returnToken "s" 5 false ⟨"a@x.com", "pw", some true⟩
    (fun e => if e = "a@x.com" then
      some ⟨"u1", "A", "a@x.com", "hash", none⟩ else none)
    (fun e => if e = "a@x.com" then
      some ⟨"u1", "A", "a@x.com", "hash", []⟩ else none)
    (fun p h => decide (p = "pw") && decide (h = "hash"))
    ⟨"ip", "os", "br", "loc"⟩ ⟨"u1", "A", "a@x.com", "hash", none⟩
    ⟨"u1", "A", "a@x.com", "hash", []⟩
    (by decide) (by decide) (by decide) (by decide)).1 rfl

/-- Evidence for claim C9 being a code bug in the v1 routes: the
validation checkpoint throws a fully-formed 400 response with per-field
detail (here the `Invalid email address` issue on the `email` field), but
the v1 login catch-all has no `instanceof Response` check, so the thrown
400 is funnelled through `internalServerError` and the client receives a
500 `server_error` envelope with the generic detail
`Unknown server error` instead.  (The legacy route returns the thrown
response unchanged, as the claim describes — second conjunct.) -/
theorem claim_c9_v1_validation_error_becomes_500 :
    (loginPostV1 "s" 0 false true true
        (Except.error (Thrown.response
          (validationError [⟨"Invalid email address", ["email"]⟩] 0)))
        (fun _ => none) (fun _ _ => false) ⟨"ip", "os", "br", "loc"⟩ =
      [Effect.respond (apiError HTTP_STATUS.INTERNAL_SERVER_ERROR.message
        HTTP_STATUS.INTERNAL_SERVER_ERROR.code
        [⟨"Unknown server error", none⟩] 0 ErrType.server_error)])
    ∧ (loginPostV0 "s" 0 false true true
        (Except.error (Thrown.response
          (validationError [⟨"Invalid email address", ["email"]⟩] 0)))
        (fun _ => none) (fun _ _ => false) =
      [EffectV0.respond
        (validationError [⟨"Invalid email address", ["email"]⟩] 0)]) := by
  constructor
  · rfl
  · rfl

theorem takeWhile_ne_comma_append (a b : List Char)
    (h : ∀ c ∈ a, c ≠ ',') :
    (a ++ ',' :: b).takeWhile (fun c => decide (c ≠ ',')) = a := by
  induction a with
  | nil => simp
  | cons c rest ih =>
      simp only [List.cons_append, List.takeWhile_cons]
      have hc : decide (c ≠ ',') = true := by
        simp [h c (by simp)]
      rw [hc]
      simp only [if_true]
      rw [ih (fun x hx => h x (by simp [hx]))]

/-- Claim C10: the rate-limit scope IP.  With no `x-forwarded-for` header
(or an empty one) the client IP is the constant `127.0.0.1`; the IPv6
loopback `::1` is normalized to `127.0.0.1`; a header containing a comma
is reduced to its first comma-separated entry (trimmed, then normalized);
a comma-free nonempty header is taken whole (normalized only); hence every
request lacking the header lands in the same per-IP rate-limit key. -/
theorem claim_c10_client_ip_derivation :
    (getClientIP none = "127.0.0.1")
    ∧ (getClientIP (some "") = "127.0.0.1")
    ∧ (getClientIP (some "::1") = "127.0.0.1")
    ∧ (∀ a b : String, (∀ c ∈ a.data, c ≠ ',') → a ≠ "" →
        getClientIP (some (a ++ "," ++ b)) =
          (if jsTrim a = "::1" then "127.0.0.1" else jsTrim a))
    ∧ (∀ s : String, (∀ c ∈ s.data, c ≠ ',') → s ≠ "" →
        getClientIP (some s) = (if s = "::1" then "127.0.0.1" else s))
    ∧ (∀ isProd : Bool,
        createRedisKey isProd ("ratelimit:login:" ++ getClientIP none) =
          createRedisKey isProd "ratelimit:login:127.0.0.1") := by
  refine ⟨rfl, rfl, rfl, ?_, ?_, ?_⟩
  · intro a b ha hane
    have hdata : (a ++ "," ++ b).data = a.data ++ ',' :: b.data := by
      simp [String.data_append]
    have hne : a ++ "," ++ b ≠ "" := by
      intro h
      have hd := congrArg String.data h
      rw [hdata] at hd
      simp at hd
    have hcontains : ((a ++ "," ++ b).data.contains ',') = true := by
      rw [hdata]
      exact List.elem_iff.mpr (by simp)
    have htake : (a ++ "," ++ b).data.takeWhile (fun c => decide (c ≠ ',')) =
        a.data := by
      rw [hdata]
      exact takeWhile_ne_comma_append a.data b.data ha
    unfold getClientIP
    simp only [hne, hcontains, htake, if_true, ite_false, if_neg hne]
  · intro s hs hsne
    have hmem : ',' ∉ s.data := fun hm => hs ',' hm rfl
    have hcontains : (s.data.contains ',') = false := by
      cases hcb : s.data.contains ','
      · rfl
      · exact absurd (List.elem_iff.mp hcb) hmem
    unfold getClientIP
    simp only [hcontains, if_neg hsne, Bool.false_eq_true, if_false]
  · intro isProd
    rfl

/-- Witness for claim C10: a concrete two-entry forwarded header and a
concrete single-entry header. -/
theorem claim_c10_client_ip_derivation_witness :
    (getClientIP (some ("10.0.0.1" ++ "," ++ " 9.9.9.9")) = "10.0.0.1")
    ∧ (getClientIP (some "8.8.8.8") = "8.8.8.8") := by
  constructor
  · exact ((claim_c10_client_ip_derivation).2.2.2.1 "10.0.0.1" " 9.9.9.9"
      (by decide) (by decide)).trans (by decide)
  · exact ((claim_c10_client_ip_derivation).2.2.2.2.1 "8.8.8.8"
      (by decide) (by decide)).trans (by decide)
